import Mathlib

/-!
Verification of the push-notification dispatch layer.

Shallow embedding of the repository sources:
  notifications/models.py           (data model)
  notifications/firebase_service.py (delivery gateway adapter)
  notifications/signals.py          (automatic trigger and async dispatcher)
  notifications/admin.py            (manual trigger and admin dispatcher)
  notifications/views.py            (registration and unregistration APIs)

External collaborators (the firebase_admin SDK and the Django ORM) are
modelled by explicit oracles and explicit list-valued stores.  Stateful
class attributes of FirebaseService are threaded as an explicit
FirebaseState value.  Timestamps are abstract naturals supplied by the
caller (the value of timezone.now at dispatch time).
-/

namespace PushBack

/-! ## Data model (models.py) -/

/-- One row of the DeviceToken table.  The auto-managed created_at and
updated_at timestamp columns are not modelled; no verified property
depends on them.  The user column is the optional owning-user id. -/
structure DeviceToken where
  user : Option Nat
  token : String
  device_type : String
  is_active : Bool
deriving DecidableEq

/-- One row of the PushNotification table.  The created_by column and the
primary key are not modelled; sent_at is an abstract timestamp. -/
structure Notification where
  title : String
  body : String
  data : List (String × String)
  image_url : Option String
  auto_send : Bool
  send_to_all : Bool
  target_users : List Nat
  target_device_types : String
  status : String
  total_recipients : Nat
  successful_sends : Nat
  failed_sends : Nat
  sent_at : Option Nat
deriving DecidableEq

/-- One row of the NotificationLog table, for one delivery attempt of the
dispatched notification (the notification foreign key is implicit: every
row produced by a dispatch function belongs to the dispatched request). -/
structure NotificationLog where
  device_token : DeviceToken
  status : String
  error_message : Option String
deriving DecidableEq

/-! ## Delivery gateway adapter (firebase_service.py) -/

/-- The message handed to messaging.send: token plus the notification
content built by messaging.Notification and the data payload. -/
structure FcmMessage where
  token : String
  title : String
  body : String
  data : List (String × String)
  image : Option String
deriving DecidableEq

/-- What happens when the real initialization body runs (lines 22-39 of
firebase_service.py): the key file exists and initialize_app succeeds;
the key file is missing (Firebase features disabled, no exception); or
certificate loading or initialize_app raises with a message. -/
inductive InitOutcome where
  | ok : InitOutcome
  | noKey : InitOutcome
  | raised : String → InitOutcome
deriving DecidableEq

/-- Environment oracle for the firebase_admin SDK: the outcome of the
one initialization attempt, and the behaviour of messaging.send on each
message (a message id on success, or the message of the raised
exception). -/
structure FirebaseEnv where
  initOutcome : InitOutcome
  send : FcmMessage → Except String String

/-- The mutable class attributes of FirebaseService: app models cls._app
(some client or none) and initialized models cls._initialized. -/
structure FirebaseState where
  app : Option Unit
  initialized : Bool
deriving DecidableEq

/-- FirebaseService.initialize_firebase.  Returns the new class state and
the message of the exception re-raised at line 39, when one is raised.
Note that in the raising branch cls._initialized is set to true before
the re-raise. -/
def initialize_firebase (env : FirebaseEnv) (s : FirebaseState) :
    FirebaseState × Option String :=
  if s.app.isNone && !s.initialized then
    match env.initOutcome with
    | .ok => ({ app := some (), initialized := true }, none)
    | .noKey => ({ app := none, initialized := true }, none)
    | .raised e => ({ app := none, initialized := true }, some e)
  else
    (s, none)

/-- The initialization step has already run (or a client exists), so that
initialize_firebase is a no-op that cannot raise. -/
def firebaseSettled (s : FirebaseState) : Bool :=
  s.app.isSome || s.initialized

/-- FirebaseService.is_firebase_available.  Propagates an exception
raised by the initialization attempt. -/
def is_firebase_available (env : FirebaseEnv) (s : FirebaseState) :
    FirebaseState × Except String Bool :=
  match initialize_firebase env s with
  | (s1, some e) => (s1, .error e)
  | (s1, none) => (s1, .ok s1.app.isSome)

/-- Result dictionary of send_notification_to_token. -/
structure SendResult where
  success : Bool
  message_id : Option String
  error : Option String
deriving DecidableEq

/-- Per-token entry of the responses list of
send_notification_to_multiple_tokens. -/
structure TokenSendResult where
  token : String
  success : Bool
  message_id : Option String
  error : Option String
deriving DecidableEq

/-- Drop the token tag, leaving the fields of a single-send result. -/
def TokenSendResult.toSendResult (r : TokenSendResult) : SendResult :=
  { success := r.success, message_id := r.message_id, error := r.error }

/-- Tag a single-send result with the token it was for. -/
def SendResult.withToken (r : SendResult) (tok : String) : TokenSendResult :=
  { token := tok, success := r.success, message_id := r.message_id, error := r.error }

/-- Result dictionary of send_notification_to_multiple_tokens. -/
structure MulticastResult where
  success_count : Nat
  failure_count : Nat
  responses : List TokenSendResult
deriving DecidableEq

/-- The fixed error message returned when Firebase is not configured. -/
def notConfiguredError : String :=
  "Firebase is not properly configured. Please check your service account key."

/-- FirebaseService.send_notification_to_token.  Returns the class state
after the call and either the raised exception (an initialization
failure at line 69 is outside the try and propagates) or the result
dictionary together with the list of messages actually handed to
messaging.send (the attempted network calls, for instrumentation). -/
def send_notification_to_token (env : FirebaseEnv) (s : FirebaseState)
    (token title body : String) (data : List (String × String))
    (image_url : Option String) :
    FirebaseState × Except String (SendResult × List FcmMessage) :=
  match is_firebase_available env s with
  | (s1, .error e) => (s1, .error e)
  | (s1, .ok false) =>
      (s1, .ok ({ success := false, message_id := none,
                  error := some notConfiguredError }, []))
  | (s1, .ok true) =>
      let msg : FcmMessage :=
        { token := token, title := title, body := body, data := data, image := image_url }
      match env.send msg with
      | .ok mid =>
          (s1, .ok ({ success := true, message_id := some mid, error := none }, [msg]))
      | .error e =>
          (s1, .ok ({ success := false, message_id := none, error := some e }, [msg]))

/-- The per-token loop of send_notification_to_multiple_tokens
(lines 154-181): each token gets its own message and its own try block,
so one failure never aborts the others.  Returns the responses list in
input order and the attempted messages. -/
def sendEach (env : FirebaseEnv) (title body : String)
    (data : List (String × String)) (image_url : Option String) :
    List String → List TokenSendResult × List FcmMessage
  | [] => ([], [])
  | token :: rest =>
      let msg : FcmMessage :=
        { token := token, title := title, body := body, data := data, image := image_url }
      let r : TokenSendResult :=
        match env.send msg with
        | .ok mid => { token := token, success := true, message_id := some mid, error := none }
        | .error e => { token := token, success := false, message_id := none, error := some e }
      let rec1 := sendEach env title body data image_url rest
      (r :: rec1.1, msg :: rec1.2)

/-- FirebaseService.send_notification_to_multiple_tokens.  It calls
initialize_firebase (whose exception propagates) but, unlike the single
form, never consults the availability of the client before sending.  The
success and failure counters are incremented once per response in the
loop, hence equal the counts over the produced responses list.  The
outer catch-all (lines 192-205) is unreachable here: in this embedding
nothing between the two try heads can raise. -/
def send_notification_to_multiple_tokens (env : FirebaseEnv) (s : FirebaseState)
    (tokens : List String) (title body : String) (data : List (String × String))
    (image_url : Option String) :
    FirebaseState × Except String (MulticastResult × List FcmMessage) :=
  match initialize_firebase env s with
  | (s1, some e) => (s1, .error e)
  | (s1, none) =>
      if tokens.isEmpty then
        (s1, .ok ({ success_count := 0, failure_count := 0, responses := [] }, []))
      else
        let r := sendEach env title body data image_url tokens
        (s1, .ok ({ success_count := r.1.countP (fun resp => resp.success),
                    failure_count := r.1.countP (fun resp => !resp.success),
                    responses := r.1 }, r.2))

/-- Specification-side description of one single-recipient call in a
state where initialization cannot raise: the fixed failure with no
network attempt when no client exists, otherwise the converted outcome
of messaging.send.  Used to state the adapter claims. -/
def tokenSendSpec (env : FirebaseEnv) (s : FirebaseState)
    (token title body : String) (data : List (String × String))
    (image_url : Option String) : SendResult × List FcmMessage :=
  if s.app.isSome then
    let msg : FcmMessage :=
      { token := token, title := title, body := body, data := data, image := image_url }
    match env.send msg with
    | .ok mid => ({ success := true, message_id := some mid, error := none }, [msg])
    | .error e => ({ success := false, message_id := none, error := some e }, [msg])
  else
    ({ success := false, message_id := none, error := some notConfiguredError }, [])

/-! ## Audience resolver and batch dispatcher (signals.py, admin.py) -/

/-- get_target_tokens (signals.py lines 109-121; the identical
_get_target_tokens of admin.py lines 165-177): active rows, restricted
to the platform when the filter is not all, and to the explicit user set
when the request is not broadcast and that set is non-empty.  The store
db is the DeviceToken table in its iteration order, so the result list
is order-stable. -/
def get_target_tokens (db : List DeviceToken) (n : Notification) : List DeviceToken :=
  let q1 := db.filter (fun t => t.is_active)
  let q2 :=
    if n.target_device_types ≠ "all" then
      q1.filter (fun t => t.device_type == n.target_device_types)
    else q1
  if !n.send_to_all && !n.target_users.isEmpty then
    q2.filter (fun t =>
      match t.user with
      | some u => n.target_users.contains u
      | none => false)
  else q2

/-- The FCM batch limit used by both dispatchers. -/
def batchSize : Nat := 500

/-- The batch loop header: for i in range(0, len(tokens), 500) with
tokens i:i+500, i.e. consecutive chunks of at most 500 in order. -/
def batches {α : Type} : List α → List (List α)
  | [] => []
  | a :: rest => (a :: rest).take batchSize :: batches ((a :: rest).drop batchSize)
termination_by l => l.length
decreasing_by simp [batchSize]; omega

/-- The sizes of the consecutive batches cut from a list of length n. -/
def batchSizes : Nat → List Nat
  | 0 => []
  | n + 1 => min (n + 1) batchSize :: batchSizes (n + 1 - batchSize)
decreasing_by simp [batchSize]; omega

/-- Accumulated result of the dispatch loop over the batches: final class
state, log rows created, success and failure counters, the token lists
handed to the bulk gateway form (one per issued call), and the message
of an exception that aborted the loop, if any. -/
structure BatchLoopResult where
  fs : FirebaseState
  logs : List NotificationLog
  success_count : Nat
  failure_count : Nat
  calls : List (List String)
  exc : Option String
deriving DecidableEq

/-- The batch loop shared by signals.py lines 55-80 and admin.py lines
120-145: per batch, one bulk gateway call; per response, one log row
correlated by position with the corresponding endpoint of the batch
(the enumerate index into batch_tokens, rendered as a zip, which is
faithful because the adapter returns exactly one response per token),
and counter updates.  An exception from a call (a raising first
initialization) aborts the loop, keeping the rows already created. -/
def dispatchBatches (env : FirebaseEnv) (title body : String)
    (data : List (String × String)) (image_url : Option String) :
    FirebaseState → List (List DeviceToken) → BatchLoopResult
  | fs, [] => ⟨fs, [], 0, 0, [], none⟩
  | fs, batch :: rest =>
      let toks := batch.map (fun t => t.token)
      match send_notification_to_multiple_tokens env fs toks title body data image_url with
      | (fs1, .error e) => ⟨fs1, [], 0, 0, [toks], some e⟩
      | (fs1, .ok (res, _)) =>
          let logs := (res.responses.zip batch).map (fun p =>
            { device_token := p.2,
              status := if p.1.success then "success" else "failed",
              error_message := if p.1.success then none else p.1.error })
          let sc := res.responses.countP (fun resp => resp.success)
          let fc := res.responses.countP (fun resp => !resp.success)
          let r := dispatchBatches env title body data image_url fs1 rest
          ⟨r.fs, logs ++ r.logs, sc + r.success_count, fc + r.failure_count,
           toks :: r.calls, r.exc⟩

/-- Result of one run of send_notification_async: the notification row
as last saved, the log rows created, the token lists of the issued bulk
gateway calls, the class state, and the message passed to logger.error
when the run logged an error (the id interpolated into the log text is
not modelled). -/
structure AsyncResult where
  notification : Notification
  logs : List NotificationLog
  calls : List (List String)
  fs : FirebaseState
  errorLog : Option String
deriving DecidableEq

/-- send_notification_async (signals.py lines 23-106).  Saves status
sending, resolves the audience; on an empty audience saves status failed
and logs the error; otherwise saves total_recipients, runs the batch
loop, and saves the counters, sent_at and the final status.  The outer
except clause re-reads the row as last saved and forces status failed;
the only raise point in this embedding is a raising first initialization
inside a bulk call. -/
def send_notification_async (env : FirebaseEnv) (fs : FirebaseState)
    (db : List DeviceToken) (now : Nat) (n : Notification) : AsyncResult :=
  let n1 := { n with status := "sending" }
  let target := get_target_tokens db n1
  if target.isEmpty then
    { notification := { n1 with status := "failed" }, logs := [], calls := [],
      fs := fs, errorLog := some "No valid device tokens found for notification" }
  else
    let n2 := { n1 with total_recipients := target.length }
    let data := if n2.data.isEmpty then [] else n2.data
    let r := dispatchBatches env n2.title n2.body data n2.image_url fs (batches target)
    match r.exc with
    | some e =>
        { notification := { n2 with status := "failed" }, logs := r.logs,
          calls := r.calls, fs := r.fs,
          errorLog := some ("Failed to send notification: " ++ e) }
    | none =>
        { notification :=
            { n2 with successful_sends := r.success_count,
                      failed_sends := r.failure_count,
                      sent_at := some now,
                      status := if r.success_count > 0 then "sent" else "failed" },
          logs := r.logs, calls := r.calls, fs := r.fs, errorLog := none }

/-- Result of one run of the admin _send_single_notification: the
notification row as last saved, logs, issued calls, class state, and the
message of the exception propagated to the caller, if any. -/
structure AdminSendResult where
  notification : Notification
  logs : List NotificationLog
  calls : List (List String)
  fs : FirebaseState
  exc : Option String
deriving DecidableEq

/-- PushNotificationAdmin._send_single_notification (admin.py lines
94-163).  Identical pipeline to send_notification_async, except that an
empty audience raises to the caller after saving status failed, and any
exception from the batch loop propagates instead of being caught. -/
def send_single_notification (env : FirebaseEnv) (fs : FirebaseState)
    (db : List DeviceToken) (now : Nat) (n : Notification) : AdminSendResult :=
  let n1 := { n with status := "sending" }
  let target := get_target_tokens db n1
  if target.isEmpty then
    { notification := { n1 with status := "failed" }, logs := [], calls := [],
      fs := fs, exc := some "No valid device tokens found for targeting criteria" }
  else
    let n2 := { n1 with total_recipients := target.length }
    let data := if n2.data.isEmpty then [] else n2.data
    let r := dispatchBatches env n2.title n2.body data n2.image_url fs (batches target)
    match r.exc with
    | some e =>
        { notification := n2, logs := r.logs, calls := r.calls, fs := r.fs,
          exc := some e }
    | none =>
        { notification :=
            { n2 with successful_sends := r.success_count,
                      failed_sends := r.failure_count,
                      sent_at := some now,
                      status := if r.success_count > 0 then "sent" else "failed" },
          logs := r.logs, calls := r.calls, fs := r.fs, exc := none }

/-! ## Trigger layer (signals.py auto trigger, admin.py manual action) -/

/-- auto_send_notification (signals.py lines 13-21): the post_save
receiver schedules the async dispatcher after commit only when the row
was just created, is in draft, and has auto_send set; otherwise nothing
runs. -/
def auto_send_notification (env : FirebaseEnv) (fs : FirebaseState)
    (db : List DeviceToken) (now : Nat) (created : Bool) (n : Notification) :
    AsyncResult :=
  if created && n.status == "draft" && n.auto_send then
    send_notification_async env fs db now n
  else
    { notification := n, logs := [], calls := [], fs := fs, errorLog := none }

/-- PushNotificationAdmin.send_notifications (admin.py lines 63-90) over
the selected rows: only rows in draft are processed; each runs inside
its own transaction.atomic block, so a raising dispatch rolls this row
and its log rows back to their pre-dispatch state while later rows are
still processed.  Returns the selected rows after the action, the class
state, and the sent and error counters. -/
def send_notifications (env : FirebaseEnv) (db : List DeviceToken) (now : Nat) :
    FirebaseState → List Notification → List Notification × FirebaseState × Nat × Nat
  | fs, [] => ([], fs, 0, 0)
  | fs, n :: rest =>
      if n.status == "draft" then
        let a := send_single_notification env fs db now n
        match a.exc with
        | some _ =>
            let r := send_notifications env db now a.fs rest
            (n :: r.1, r.2.1, r.2.2.1, r.2.2.2 + 1)
        | none =>
            let r := send_notifications env db now a.fs rest
            (a.notification :: r.1, r.2.1, r.2.2.1 + 1, r.2.2.2)
      else
        let r := send_notifications env db now fs rest
        (n :: r.1, r.2.1, r.2.2.1, r.2.2.2)

/-! ## Registration and unregistration APIs (views.py) -/

/-- Request payload of the registration view; none means the key is
absent from request.data. -/
structure RegisterPayload where
  token : Option String
  device_type : Option String
  user_id : Option Nat
deriving DecidableEq

/-- HTTP response of the modelled views: status code, error body when
present, and the created flag of a successful registration. -/
structure ApiResponse where
  status : Nat
  error : Option String
  created : Option Bool
deriving DecidableEq

/-- Python falsiness of request.data.get for a string value: absent or
empty. -/
def isFalsyStr : Option String → Bool
  | none => true
  | some s => s.isEmpty

/-- Python falsiness of request.data.get for an integer value: absent or
zero. -/
def isFalsyNat : Option Nat → Bool
  | none => true
  | some u => u == 0

/-- DeviceToken.objects.update_or_create keyed by token with defaults
user, device_type and is_active=True (views.py lines 50-57).  The token
column is unique (models.py line 8), so at most one row matches; the map
touches exactly that row.  A missing row is inserted with is_active
true. -/
def update_or_create (db : List DeviceToken) (tok : String)
    (user : Option Nat) (device_type : String) : List DeviceToken × Bool :=
  if db.any (fun t => t.token == tok) then
    (db.map (fun t =>
       if t.token == tok then
         { t with user := user, device_type := device_type, is_active := true }
       else t),
     false)
  else
    (db ++ [{ user := user, token := tok, device_type := device_type, is_active := true }],
     true)

/-- The owner stored by a registration call: none when user_id is falsy,
otherwise the given id. -/
def resolvedUser (p : RegisterPayload) : Option Nat :=
  if isFalsyNat p.user_id then none else p.user_id

/-- register_device_token (views.py lines 16-70) against the user-id
store users and the DeviceToken store db.  Falsy token gives 400; a
truthy user_id that matches no user gives 404 and leaves the store
untouched; otherwise the row keyed by the token is upserted and the
response reports created (201) versus updated (200). -/
def register_device_token (users : List Nat) (db : List DeviceToken)
    (p : RegisterPayload) : List DeviceToken × ApiResponse :=
  if isFalsyStr p.token then
    (db, { status := 400, error := some "Token is required", created := none })
  else if !(isFalsyNat p.user_id) && !(users.contains (p.user_id.getD 0)) then
    (db, { status := 404, error := some "User not found", created := none })
  else
    let r := update_or_create db (p.token.getD "") (resolvedUser p)
               (p.device_type.getD "android")
    (r.1, { status := if r.2 then 201 else 200, error := none, created := some r.2 })

/-- unregister_device_token (views.py lines 75-106).  Falsy token gives
400.  get_object_or_404 raises Http404 for an unknown token, but the
blanket except Exception of the view catches it and returns 500 with the
body Internal server error; a matching row has is_active set to false
and is saved. -/
def unregister_device_token (db : List DeviceToken) (tokenOpt : Option String) :
    List DeviceToken × ApiResponse :=
  if isFalsyStr tokenOpt then
    (db, { status := 400, error := some "Token is required", created := none })
  else
    let tok := tokenOpt.getD ""
    match db.find? (fun t => t.token == tok) with
    | none =>
        (db, { status := 500, error := some "Internal server error", created := none })
    | some _ =>
        (db.map (fun t => if t.token == tok then { t with is_active := false } else t),
         { status := 200, error := none, created := none })

/-! ## Specification-side helper definitions used by the theorems -/

/-- The message that a dispatch with the given content builds for one
token. -/
def mkFcmMessage (title body : String) (data : List (String × String))
    (image_url : Option String) (tok : String) : FcmMessage :=
  { token := tok, title := title, body := body, data := data, image := image_url }

/-- The per-token response the adapter produces for a token under the
oracle env, as recorded by the bulk responses list. -/
def gatewayResult (env : FirebaseEnv) (title body : String)
    (data : List (String × String)) (image_url : Option String)
    (tok : String) : TokenSendResult :=
  match env.send (mkFcmMessage title body data image_url tok) with
  | .ok mid => { token := tok, success := true, message_id := some mid, error := none }
  | .error e => { token := tok, success := false, message_id := none, error := some e }

/-- The log row the dispatcher creates for one endpoint, given the
oracle env and the notification content. -/
def expectedLog (env : FirebaseEnv) (title body : String)
    (data : List (String × String)) (image_url : Option String)
    (t : DeviceToken) : NotificationLog :=
  let r := gatewayResult env title body data image_url t.token
  { device_token := t,
    status := if r.success then "success" else "failed",
    error_message := if r.success then none else r.error }

/-! ## Concrete sample data for witnesses and counterexamples -/

/-- A configured gateway oracle that rejects one token and accepts the
rest. -/
def envW : FirebaseEnv :=
  { initOutcome := .ok,
    send := fun m => if m.token == "tokB" then .error "invalid token" else .ok "mid-1" }

/-- A settled class state holding a usable client. -/
def fsW : FirebaseState := { app := some (), initialized := true }

/-- A small DeviceToken table: two active endpoints, one inactive. -/
def dbW : List DeviceToken :=
  [{ user := some 1, token := "tokA", device_type := "android", is_active := true },
   { user := none, token := "tokB", device_type := "ios", is_active := true },
   { user := none, token := "tokC", device_type := "web", is_active := false }]

/-- A draft broadcast notification. -/
def nW : Notification :=
  { title := "t", body := "b", data := [], image_url := none, auto_send := true,
    send_to_all := true, target_users := [], target_device_types := "all",
    status := "draft", total_recipients := 0, successful_sends := 0,
    failed_sends := 0, sent_at := none }

/-- An unconfigured settled gateway where the external SDK raises the
default-app error on any send attempt. -/
def envNoApp : FirebaseEnv :=
  { initOutcome := .noKey,
    send := fun _ => .error "The default Firebase app does not exist" }

/-- The settled class state after a failed key lookup: no client,
initialization memoized. -/
def sNoApp : FirebaseState := { app := none, initialized := true }

/-- A gateway oracle whose initialization raises (certificate loading or
initialize_app fails). -/
def envRaise : FirebaseEnv :=
  { initOutcome := .raised "Invalid certificate", send := fun _ => .error "unused" }

/-- A sample registration payload: the already-present token tokA with
new metadata. -/
def pW : RegisterPayload :=
  { token := some "tokA", device_type := some "ios", user_id := some 1 }

/-- A one-row table holding a deactivated, owned endpoint. -/
def dbC10 : List DeviceToken :=
  [{ user := some 1, token := "tokC", device_type := "web", is_active := false }]

/-- A registration payload for that token with no device type and no
user id. -/
def pC10 : RegisterPayload :=
  { token := some "tokC", device_type := none, user_id := none }

/-- The row that registration of pC10 must leave behind: reactivated,
default platform, no owner. -/
def tC10 : DeviceToken :=
  { user := none, token := "tokC", device_type := "android", is_active := true }

/-! ## Gateway adapter lemmas -/

/-- In a settled state the memoized initialization is a no-op and cannot
raise. -/
theorem initialize_firebase_settled (env : FirebaseEnv) (s : FirebaseState)
    (h : firebaseSettled s = true) : initialize_firebase env s = (s, none) := by
  unfold firebaseSettled at h
  unfold initialize_firebase
  cases happ : s.app <;> cases hinit : s.initialized <;> simp_all

/-- The per-token loop returns one response per token, in input order,
each the converted outcome of its own send. -/
theorem sendEach_eq (env : FirebaseEnv) (title body : String)
    (data : List (String × String)) (image_url : Option String)
    (toks : List String) :
    sendEach env title body data image_url toks =
      (toks.map (gatewayResult env title body data image_url),
       toks.map (mkFcmMessage title body data image_url)) := by
  induction toks with
  | nil => rfl
  | cons t ts ih => simp [sendEach, gatewayResult, mkFcmMessage, ih]

/-- The bulk form in a settled state: no exception, state unchanged, one
response per token in order, counters counting the responses. -/
theorem multicast_settled (env : FirebaseEnv) (s : FirebaseState)
    (h : firebaseSettled s = true) (tokens : List String) (title body : String)
    (data : List (String × String)) (image_url : Option String) :
    send_notification_to_multiple_tokens env s tokens title body data image_url =
      (s, .ok
        ({ success_count :=
             (tokens.map (gatewayResult env title body data image_url)).countP
               (fun r => r.success),
           failure_count :=
             (tokens.map (gatewayResult env title body data image_url)).countP
               (fun r => !r.success),
           responses := tokens.map (gatewayResult env title body data image_url) },
         tokens.map (mkFcmMessage title body data image_url))) := by
  unfold send_notification_to_multiple_tokens
  rw [initialize_firebase_settled env s h]
  cases tokens with
  | nil => simp
  | cons t ts => simp [sendEach_eq]

/-- Zipping a mapped list with its source pairs each image with its
preimage, in order. -/
theorem map_zip_self {α β : Type} (f : α → β) (l : List α) :
    (l.map f).zip l = l.map (fun a => (f a, a)) := by
  induction l with
  | nil => rfl
  | cons a as ih => simp [ih]

/-- The dispatch loop in a settled state processes every batch: no
exception, state unchanged, one log row per endpoint in batch order,
counters counting the per-endpoint outcomes, one gateway call per
batch carrying the batch tokens in order. -/
theorem dispatchBatches_settled (env : FirebaseEnv) (title body : String)
    (data : List (String × String)) (image_url : Option String)
    (s : FirebaseState) (h : firebaseSettled s = true)
    (bs : List (List DeviceToken)) :
    dispatchBatches env title body data image_url s bs =
      ⟨s, bs.flatten.map (expectedLog env title body data image_url),
       bs.flatten.countP (fun t => (gatewayResult env title body data image_url t.token).success),
       bs.flatten.countP (fun t => !(gatewayResult env title body data image_url t.token).success),
       bs.map (fun b => b.map (fun t => t.token)), none⟩ := by
  induction bs with
  | nil => rfl
  | cons b rest ih =>
    simp only [dispatchBatches]
    rw [multicast_settled env s h]
    simp [ih, List.flatten_cons, List.map_map, List.countP_append,
      map_zip_self, List.countP_map, Function.comp_def, expectedLog]

/-! ## Batching lemmas -/

/-- Concatenating the batches gives back the resolved list: the batches
are consecutive and preserve resolved order. -/
theorem batches_flatten {α : Type} (l : List α) : (batches l).flatten = l := by
  induction l using batches.induct with
  | case1 => rw [batches]; rfl
  | case2 a rest ih => rw [batches]; simp [ih]

/-- The batch sizes cut from a list are exactly the ceiling
decomposition of its length. -/
theorem batches_map_length {α : Type} (l : List α) :
    (batches l).map List.length = batchSizes l.length := by
  induction l using batches.induct with
  | case1 => rw [batches, batchSizes.eq_def]; rfl
  | case2 a rest ih =>
    rw [batches, batchSizes.eq_def]
    simp [ih, Nat.min_comm]

/-- Every batch size is at most the limit. -/
theorem batchSizes_le (n : Nat) : ∀ x ∈ batchSizes n, x ≤ batchSize := by
  induction n using batchSizes.induct with
  | case1 => intro x hx; simp [batchSizes] at hx
  | case2 n ih =>
    intro x hx
    rw [batchSizes] at hx
    rcases List.mem_cons.mp hx with h | h
    · simp [h, Nat.min_le_right]
    · exact ih x h

/-- The number of batches is the ceiling of n over the limit. -/
theorem batchSizes_length (n : Nat) :
    (batchSizes n).length = (n + (batchSize - 1)) / batchSize := by
  induction n using batchSizes.induct with
  | case1 => rw [batchSizes]; rfl
  | case2 n ih =>
    rw [batchSizes]
    simp only [batchSize] at ih ⊢
    simp only [List.length_cons, ih]
    omega

/-! ## Dispatcher lemmas -/

/-- Audience resolution ignores the status field, so marking the request
sending first does not change the resolved audience. -/
theorem get_target_tokens_set_status (db : List DeviceToken) (n : Notification)
    (st : String) :
    get_target_tokens db { n with status := st } = get_target_tokens db n := by
  cases n; rfl

/-- The data payload defaulting at the top of both dispatchers is the
identity on the modelled payload. -/
theorem data_default (l : List (String × String)) :
    (if l.isEmpty then [] else l) = l := by
  cases l <;> simp

/-- Full description of one run of send_notification_async over a
non-empty audience in a settled gateway state. -/
theorem send_notification_async_run (env : FirebaseEnv) (fs : FirebaseState)
    (db : List DeviceToken) (now : Nat) (n : Notification)
    (h : firebaseSettled fs = true) (hne : get_target_tokens db n ≠ []) :
    send_notification_async env fs db now n =
      { notification :=
          { n with
            status :=
              if (get_target_tokens db n).countP (fun t =>
                  (gatewayResult env n.title n.body n.data n.image_url t.token).success) > 0
              then "sent" else "failed",
            total_recipients := (get_target_tokens db n).length,
            successful_sends := (get_target_tokens db n).countP (fun t =>
              (gatewayResult env n.title n.body n.data n.image_url t.token).success),
            failed_sends := (get_target_tokens db n).countP (fun t =>
              !(gatewayResult env n.title n.body n.data n.image_url t.token).success),
            sent_at := some now },
        logs := (get_target_tokens db n).map
          (expectedLog env n.title n.body n.data n.image_url),
        calls := (batches (get_target_tokens db n)).map (fun b => b.map (fun t => t.token)),
        fs := fs, errorLog := none } := by
  have hset := get_target_tokens_set_status db n "sending"
  simp only [send_notification_async]
  rw [hset]
  rw [if_neg (by simp [List.isEmpty_iff, hne])]
  rw [data_default, dispatchBatches_settled env _ _ _ _ fs h]
  simp [batches_flatten]

/-- Full description of one run of the admin _send_single_notification
over a non-empty audience in a settled gateway state. -/
theorem send_single_notification_run (env : FirebaseEnv) (fs : FirebaseState)
    (db : List DeviceToken) (now : Nat) (n : Notification)
    (h : firebaseSettled fs = true) (hne : get_target_tokens db n ≠ []) :
    send_single_notification env fs db now n =
      { notification :=
          { n with
            status :=
              if (get_target_tokens db n).countP (fun t =>
                  (gatewayResult env n.title n.body n.data n.image_url t.token).success) > 0
              then "sent" else "failed",
            total_recipients := (get_target_tokens db n).length,
            successful_sends := (get_target_tokens db n).countP (fun t =>
              (gatewayResult env n.title n.body n.data n.image_url t.token).success),
            failed_sends := (get_target_tokens db n).countP (fun t =>
              !(gatewayResult env n.title n.body n.data n.image_url t.token).success),
            sent_at := some now },
        logs := (get_target_tokens db n).map
          (expectedLog env n.title n.body n.data n.image_url),
        calls := (batches (get_target_tokens db n)).map (fun b => b.map (fun t => t.token)),
        fs := fs, exc := none } := by
  have hset := get_target_tokens_set_status db n "sending"
  simp only [send_single_notification]
  rw [hset]
  rw [if_neg (by simp [List.isEmpty_iff, hne])]
  rw [data_default, dispatchBatches_settled env _ _ _ _ fs h]
  simp [batches_flatten]

/-- Counting hits and misses of a predicate over a list covers the
list. -/
theorem countP_not_add {α : Type} (p : α → Bool) (l : List α) :
    l.countP p + l.countP (fun a => !p a) = l.length := by
  induction l with
  | nil => rfl
  | cons a as ih =>
    by_cases ha : p a = true <;>
      simp [List.countP_cons, ha, ← ih] <;> omega

/-- One run of send_notification_async over an empty audience: the row
is saved failed, nothing is logged or sent, the no-tokens error is
written to the log. -/
theorem send_notification_async_empty (env : FirebaseEnv) (fs : FirebaseState)
    (db : List DeviceToken) (now : Nat) (n : Notification)
    (he : get_target_tokens db n = []) :
    send_notification_async env fs db now n =
      { notification := { n with status := "failed" }, logs := [], calls := [],
        fs := fs, errorLog := some "No valid device tokens found for notification" } := by
  have hset := get_target_tokens_set_status db n "sending"
  simp only [send_notification_async]
  rw [hset, he]
  simp

/-- One run of the admin _send_single_notification over an empty
audience: the row is saved failed, nothing is logged or sent, the
no-tokens exception is raised to the caller. -/
theorem send_single_notification_empty (env : FirebaseEnv) (fs : FirebaseState)
    (db : List DeviceToken) (now : Nat) (n : Notification)
    (he : get_target_tokens db n = []) :
    send_single_notification env fs db now n =
      { notification := { n with status := "failed" }, logs := [], calls := [],
        fs := fs, exc := some "No valid device tokens found for targeting criteria" } := by
  have hset := get_target_tokens_set_status db n "sending"
  simp only [send_single_notification]
  rw [hset, he]
  simp

/-! ## Claim theorems -/

/-- C1: for every notification request dispatched over a non-empty
resolved audience (in a gateway state where the memoized initialization
has already run, so the pass completes), the stored counters satisfy
successful_sends + failed_sends = total_recipients = number of resolved
endpoints, and the final status is sent iff successful_sends is
positive, otherwise failed — for both the automatic dispatcher of
signals.py and the manual dispatcher of admin.py. -/
theorem C1_dispatch_counters (env : FirebaseEnv) (fs : FirebaseState)
    (db : List DeviceToken) (now : Nat) (n : Notification)
    (h : firebaseSettled fs = true) (hne : get_target_tokens db n ≠ []) :
    ((send_notification_async env fs db now n).notification.total_recipients
        = (get_target_tokens db n).length ∧
     (send_notification_async env fs db now n).notification.successful_sends +
       (send_notification_async env fs db now n).notification.failed_sends
        = (send_notification_async env fs db now n).notification.total_recipients ∧
     ((send_notification_async env fs db now n).notification.status = "sent" ↔
       0 < (send_notification_async env fs db now n).notification.successful_sends) ∧
     ((send_notification_async env fs db now n).notification.status = "sent" ∨
      (send_notification_async env fs db now n).notification.status = "failed")) ∧
    ((send_single_notification env fs db now n).notification.total_recipients
        = (get_target_tokens db n).length ∧
     (send_single_notification env fs db now n).notification.successful_sends +
       (send_single_notification env fs db now n).notification.failed_sends
        = (send_single_notification env fs db now n).notification.total_recipients ∧
     ((send_single_notification env fs db now n).notification.status = "sent" ↔
       0 < (send_single_notification env fs db now n).notification.successful_sends) ∧
     ((send_single_notification env fs db now n).notification.status = "sent" ∨
      (send_single_notification env fs db now n).notification.status = "failed")) := by
  rw [send_notification_async_run env fs db now n h hne,
      send_single_notification_run env fs db now n h hne]
  constructor <;>
    refine ⟨rfl, countP_not_add _ _, ?_, ?_⟩ <;>
    by_cases hc : 0 < (get_target_tokens db n).countP (fun t =>
      (gatewayResult env n.title n.body n.data n.image_url t.token).success) <;>
    simp [hc, gt_iff_lt]

/-- Witness for C1 at the sample data. -/
theorem C1_dispatch_counters_witness :
    ((send_notification_async envW fsW dbW 5 nW).notification.total_recipients
        = (get_target_tokens dbW nW).length ∧
     (send_notification_async envW fsW dbW 5 nW).notification.successful_sends +
       (send_notification_async envW fsW dbW 5 nW).notification.failed_sends
        = (send_notification_async envW fsW dbW 5 nW).notification.total_recipients ∧
     ((send_notification_async envW fsW dbW 5 nW).notification.status = "sent" ↔
       0 < (send_notification_async envW fsW dbW 5 nW).notification.successful_sends) ∧
     ((send_notification_async envW fsW dbW 5 nW).notification.status = "sent" ∨
      (send_notification_async envW fsW dbW 5 nW).notification.status = "failed")) ∧
    ((send_single_notification envW fsW dbW 5 nW).notification.total_recipients
        = (get_target_tokens dbW nW).length ∧
     (send_single_notification envW fsW dbW 5 nW).notification.successful_sends +
       (send_single_notification envW fsW dbW 5 nW).notification.failed_sends
        = (send_single_notification envW fsW dbW 5 nW).notification.total_recipients ∧
     ((send_single_notification envW fsW dbW 5 nW).notification.status = "sent" ↔
       0 < (send_single_notification envW fsW dbW 5 nW).notification.successful_sends) ∧
     ((send_single_notification envW fsW dbW 5 nW).notification.status = "sent" ∨
      (send_single_notification envW fsW dbW 5 nW).notification.status = "failed")) :=
  C1_dispatch_counters envW fsW dbW 5 nW (by decide) (by decide)

/-- Mapping inside the chunks and flattening is flattening then
mapping. -/
theorem flatten_map_map {α β : Type} (f : α → β) (bs : List (List α)) :
    (bs.map (List.map f)).flatten = bs.flatten.map f := by
  induction bs with
  | nil => rfl
  | cons b rest ih =>
    simp only [List.map_cons, List.flatten_cons, List.map_append, ih]

/-- Batching an empty list yields no batches. -/
theorem batches_nil {α : Type} : batches ([] : List α) = [] := by
  rw [batches]

/-- The ceiling decomposition of zero is empty. -/
theorem batchSizes_zero : batchSizes 0 = [] := by
  rw [batchSizes.eq_def]

/-- Unfolding step of the ceiling decomposition for a positive length. -/
theorem batchSizes_step (n : Nat) (h : n ≠ 0) :
    batchSizes n = min n batchSize :: batchSizes (n - batchSize) := by
  cases n with
  | zero => exact absurd rfl h
  | succ m => rw [batchSizes]

/-- The ceiling decomposition of 1200 is 500, 500, 200: three batches.
Unfolded step by step because batchSizes recurses by well-founded
recursion. -/
theorem batchSizes_1200 : batchSizes 1200 = [500, 500, 200] := by
  rw [batchSizes_step 1200 (by norm_num), batchSizes_step (1200 - batchSize) (by norm_num [batchSize]),
      batchSizes_step (1200 - batchSize - batchSize) (by norm_num [batchSize])]
  norm_num [batchSize, batchSizes_zero]

/-- C2: dispatch partitions the resolved audience into consecutive
batches of at most 500 preserving resolved order, issues one bulk
gateway call per batch — ceil(n/500) calls in total, with sizes given by
the ceiling decomposition, in particular 500, 500, 200 for n = 1200 —
and creates exactly one outcome log per endpoint, position-correlated
with the endpoint of its batch. -/
theorem C2_batching (env : FirebaseEnv) (fs : FirebaseState)
    (db : List DeviceToken) (now : Nat) (n : Notification)
    (h : firebaseSettled fs = true) :
    (send_notification_async env fs db now n).calls =
      (batches (get_target_tokens db n)).map (fun b => b.map (fun t => t.token)) ∧
    (send_notification_async env fs db now n).calls.flatten =
      (get_target_tokens db n).map (fun t => t.token) ∧
    (send_notification_async env fs db now n).calls.length =
      ((get_target_tokens db n).length + (batchSize - 1)) / batchSize ∧
    (send_notification_async env fs db now n).calls.map List.length =
      batchSizes (get_target_tokens db n).length ∧
    (∀ c ∈ (send_notification_async env fs db now n).calls, c.length ≤ batchSize) ∧
    (send_notification_async env fs db now n).logs.map (fun lg => lg.device_token) =
      get_target_tokens db n ∧
    (send_notification_async env fs db now n).logs =
      (get_target_tokens db n).map (expectedLog env n.title n.body n.data n.image_url) ∧
    (send_notification_async env fs db now n).logs.length =
      (get_target_tokens db n).length ∧
    batchSizes 1200 = [500, 500, 200] := by
  have hmain :
      (send_notification_async env fs db now n).calls =
        (batches (get_target_tokens db n)).map (fun b => b.map (fun t => t.token)) ∧
      (send_notification_async env fs db now n).logs =
        (get_target_tokens db n).map (expectedLog env n.title n.body n.data n.image_url) := by
    by_cases he : get_target_tokens db n = []
    · rw [send_notification_async_empty env fs db now n he, he, batches_nil]
      exact ⟨rfl, rfl⟩
    · rw [send_notification_async_run env fs db now n h he]
      exact ⟨rfl, rfl⟩
  refine ⟨hmain.1, ?_, ?_, ?_, ?_, ?_, hmain.2, ?_, batchSizes_1200⟩
  · rw [hmain.1, flatten_map_map, batches_flatten]
  · rw [hmain.1, List.length_map, ← batchSizes_length, ← batches_map_length,
        List.length_map]
  · rw [hmain.1, List.map_map]
    simp only [Function.comp_def, List.length_map]
    exact batches_map_length _
  · intro c hc
    rcases List.mem_map.mp (hmain.1 ▸ hc) with ⟨b, hb, rfl⟩
    rw [List.length_map]
    have hmem : b.length ∈ (batches (get_target_tokens db n)).map List.length :=
      List.mem_map_of_mem List.length hb
    rw [batches_map_length] at hmem
    exact batchSizes_le _ _ hmem
  · rw [hmain.2, List.map_map]
    have : ((fun lg => lg.device_token) ∘ expectedLog env n.title n.body n.data n.image_url)
        = fun t => t := by
      funext t
      simp [expectedLog]
    rw [this]
    simp
  · rw [hmain.2, List.length_map]

/-- Witness for C2 at the sample data. -/
theorem C2_batching_witness :
    (send_notification_async envW fsW dbW 5 nW).calls =
      (batches (get_target_tokens dbW nW)).map (fun b => b.map (fun t => t.token)) ∧
    (send_notification_async envW fsW dbW 5 nW).calls.flatten =
      (get_target_tokens dbW nW).map (fun t => t.token) ∧
    (send_notification_async envW fsW dbW 5 nW).calls.length =
      ((get_target_tokens dbW nW).length + (batchSize - 1)) / batchSize ∧
    (send_notification_async envW fsW dbW 5 nW).calls.map List.length =
      batchSizes (get_target_tokens dbW nW).length ∧
    (∀ c ∈ (send_notification_async envW fsW dbW 5 nW).calls, c.length ≤ batchSize) ∧
    (send_notification_async envW fsW dbW 5 nW).logs.map (fun lg => lg.device_token) =
      get_target_tokens dbW nW ∧
    (send_notification_async envW fsW dbW 5 nW).logs =
      (get_target_tokens dbW nW).map (expectedLog envW nW.title nW.body nW.data nW.image_url) ∧
    (send_notification_async envW fsW dbW 5 nW).logs.length =
      (get_target_tokens dbW nW).length ∧
    batchSizes 1200 = [500, 500, 200] :=
  C2_batching envW fsW dbW 5 nW (by decide)

/-- C3: dispatching a request whose resolved audience is empty marks the
request failed, leaves total_recipients untouched (it stays 0 for a
fresh draft), creates no log rows, issues no gateway call, and reports
the no-eligible-recipients error: the async dispatcher writes it to the
error log, the admin dispatcher raises it to the triggering caller. -/
theorem C3_empty_audience (env : FirebaseEnv) (fs : FirebaseState)
    (db : List DeviceToken) (now : Nat) (n : Notification)
    (he : get_target_tokens db n = []) :
    (send_notification_async env fs db now n).notification.status = "failed" ∧
    (send_notification_async env fs db now n).notification.total_recipients
      = n.total_recipients ∧
    (send_notification_async env fs db now n).logs = [] ∧
    (send_notification_async env fs db now n).calls = [] ∧
    (send_notification_async env fs db now n).errorLog =
      some "No valid device tokens found for notification" ∧
    (send_single_notification env fs db now n).notification.status = "failed" ∧
    (send_single_notification env fs db now n).notification.total_recipients
      = n.total_recipients ∧
    (send_single_notification env fs db now n).logs = [] ∧
    (send_single_notification env fs db now n).calls = [] ∧
    (send_single_notification env fs db now n).exc =
      some "No valid device tokens found for targeting criteria" := by
  rw [send_notification_async_empty env fs db now n he,
      send_single_notification_empty env fs db now n he]
  simp

/-- Witness for C3: the sample notification targeted at ios endpoints
owned by user 2 resolves to nothing. -/
theorem C3_empty_audience_witness :
    (send_notification_async envW fsW dbW 7
        { nW with send_to_all := false, target_users := [2],
                  target_device_types := "ios" }).notification.status = "failed" ∧
    (send_notification_async envW fsW dbW 7
        { nW with send_to_all := false, target_users := [2],
                  target_device_types := "ios" }).notification.total_recipients
      = ({ nW with send_to_all := false, target_users := [2],
                   target_device_types := "ios" } : Notification).total_recipients ∧
    (send_notification_async envW fsW dbW 7
        { nW with send_to_all := false, target_users := [2],
                  target_device_types := "ios" }).logs = [] ∧
    (send_notification_async envW fsW dbW 7
        { nW with send_to_all := false, target_users := [2],
                  target_device_types := "ios" }).calls = [] ∧
    (send_notification_async envW fsW dbW 7
        { nW with send_to_all := false, target_users := [2],
                  target_device_types := "ios" }).errorLog =
      some "No valid device tokens found for notification" ∧
    (send_single_notification envW fsW dbW 7
        { nW with send_to_all := false, target_users := [2],
                  target_device_types := "ios" }).notification.status = "failed" ∧
    (send_single_notification envW fsW dbW 7
        { nW with send_to_all := false, target_users := [2],
                  target_device_types := "ios" }).notification.total_recipients
      = ({ nW with send_to_all := false, target_users := [2],
                   target_device_types := "ios" } : Notification).total_recipients ∧
    (send_single_notification envW fsW dbW 7
        { nW with send_to_all := false, target_users := [2],
                  target_device_types := "ios" }).logs = [] ∧
    (send_single_notification envW fsW dbW 7
        { nW with send_to_all := false, target_users := [2],
                  target_device_types := "ios" }).calls = [] ∧
    (send_single_notification envW fsW dbW 7
        { nW with send_to_all := false, target_users := [2],
                  target_device_types := "ios" }).exc =
      some "No valid device tokens found for targeting criteria" :=
  C3_empty_audience envW fsW dbW 7
    { nW with send_to_all := false, target_users := [2], target_device_types := "ios" }
    (by decide)

/-- Whatever the gateway does, one run of the async dispatcher always
leaves the request in sent or failed. -/
theorem async_status_final (env : FirebaseEnv) (fs : FirebaseState)
    (db : List DeviceToken) (now : Nat) (n : Notification) :
    (send_notification_async env fs db now n).notification.status = "sent" ∨
    (send_notification_async env fs db now n).notification.status = "failed" := by
  simp only [send_notification_async]
  repeat' split
  all_goals first | (left; rfl) | (right; rfl)

/-- When the admin dispatcher returns without raising, the request is
left in sent or failed. -/
theorem admin_exc_none_status (env : FirebaseEnv) (fs : FirebaseState)
    (db : List DeviceToken) (now : Nat) (n : Notification) :
    (send_single_notification env fs db now n).exc = none →
    ((send_single_notification env fs db now n).notification.status = "sent" ∨
     (send_single_notification env fs db now n).notification.status = "failed") := by
  simp only [send_single_notification]
  repeat' split
  all_goals intro hx
  all_goals first | (left; rfl) | (right; rfl) | (simp at hx)

/-- C4: the lifecycle is monotonic.  A request that is not in draft is
skipped unchanged by both triggers (no exception is raised: the trigger
functions are total and return the untouched row); a draft request ends
in sent or failed when a trigger dispatches it (the automatic trigger
may also leave it in draft when it does not fire, and a rolled-back
manual dispatch reverts the row to its draft state), so the status only
ever moves from draft to sent or failed and sent and failed are
terminal. -/
theorem C4_lifecycle (env : FirebaseEnv) (fs : FirebaseState) (db : List DeviceToken)
    (now : Nat) (created : Bool) (n : Notification) :
    (n.status ≠ "draft" →
       auto_send_notification env fs db now created n =
         { notification := n, logs := [], calls := [], fs := fs, errorLog := none } ∧
       send_notifications env db now fs [n] = ([n], fs, 0, 0)) ∧
    ((auto_send_notification env fs db now created n).notification.status = n.status ∨
      (n.status = "draft" ∧
        ((auto_send_notification env fs db now created n).notification.status = "sent" ∨
         (auto_send_notification env fs db now created n).notification.status = "failed"))) ∧
    (∀ m ∈ (send_notifications env db now fs [n]).1,
       m.status = n.status ∨
         (n.status = "draft" ∧ (m.status = "sent" ∨ m.status = "failed"))) := by
  refine ⟨?_, ?_, ?_⟩
  · intro hnd
    have hb : (n.status == "draft") = false := beq_eq_false_iff_ne.mpr hnd
    constructor
    · simp [auto_send_notification, hb]
    · simp [send_notifications, hb]
  · by_cases hd : n.status = "draft"
    · simp only [auto_send_notification]
      split
      · exact Or.inr ⟨hd, async_status_final env fs db now n⟩
      · exact Or.inl rfl
    · have hb : (n.status == "draft") = false := beq_eq_false_iff_ne.mpr hd
      left
      simp [auto_send_notification, hb]
  · intro m hm
    by_cases hd : n.status = "draft"
    · have hb : (n.status == "draft") = true := by simp [hd]
      rcases hx : (send_single_notification env fs db now n).exc with _ | e
      · simp only [send_notifications, hb, if_true, hx] at hm
        simp at hm
        exact Or.inr ⟨hd, hm ▸ admin_exc_none_status env fs db now n hx⟩
      · simp only [send_notifications, hb, if_true, hx] at hm
        simp at hm
        exact Or.inl (hm ▸ rfl)
    · have hb : (n.status == "draft") = false := beq_eq_false_iff_ne.mpr hd
      simp [send_notifications, hb] at hm
      exact Or.inl (hm ▸ rfl)

/-- Witness for C4 at the sample data: a request already in sent state
is skipped unchanged by both triggers, and the dispatched draft sample
ends in sent or failed. -/
theorem C4_lifecycle_witness :
    (auto_send_notification envW fsW dbW 9 true { nW with status := "sent" } =
       { notification := { nW with status := "sent" }, logs := [], calls := [],
         fs := fsW, errorLog := none } ∧
     send_notifications envW dbW 9 fsW [{ nW with status := "sent" }] =
       ([{ nW with status := "sent" }], fsW, 0, 0)) ∧
    (∀ m ∈ (send_notifications envW dbW 9 fsW [nW]).1,
       m.status = nW.status ∨
         (nW.status = "draft" ∧ (m.status = "sent" ∨ m.status = "failed"))) :=
  ⟨(C4_lifecycle envW fsW dbW 9 true { nW with status := "sent" }).1 (by decide),
   (C4_lifecycle envW fsW dbW 9 true nW).2.2⟩

/-- Flattening singleton images is mapping. -/
theorem flatten_map_singleton {α β : Type} (f : α → β) (l : List α) :
    (l.map (fun a => [f a])).flatten = l.map f := by
  induction l with
  | nil => rfl
  | cons a as ih => simp [ih]

/-- With a configured client, the tagged single-call result for a token
is the bulk per-token response, and the single call attempts exactly
that message. -/
theorem tokenSendSpec_configured (env : FirebaseEnv) (s : FirebaseState)
    (tok title body : String) (data : List (String × String))
    (image_url : Option String) (h : s.app = some ()) :
    ((tokenSendSpec env s tok title body data image_url).1).withToken tok =
      gatewayResult env title body data image_url tok ∧
    (tokenSendSpec env s tok title body data image_url).2 =
      [mkFcmMessage title body data image_url tok] := by
  unfold tokenSendSpec gatewayResult
  rw [h]
  simp only [mkFcmMessage]
  cases henv : env.send
      { token := tok, title := title, body := body, data := data, image := image_url } <;>
    simp [SendResult.withToken, henv]

/-- C5 counterexample: with the gateway not configured, the single form
short-circuits with the fixed not-configured message and attempts no
network call, while the bulk form still attempts the send for its token
and records the raised default-app error — so the bulk responses are not
the looped single-form results, refuting the claim at this input. -/
theorem C5_counterexample :
    send_notification_to_multiple_tokens envNoApp sNoApp ["tokA"] "t" "b" [] none
      = (sNoApp, .ok
          ({ success_count := 0, failure_count := 1,
             responses := [{ token := "tokA", success := false, message_id := none,
                             error := some "The default Firebase app does not exist" }] },
           [{ token := "tokA", title := "t", body := "b", data := [], image := none }])) ∧
    send_notification_to_token envNoApp sNoApp "tokA" "t" "b" [] none
      = (sNoApp, .ok
          ({ success := false, message_id := none, error := some notConfiguredError }, [])) ∧
    ¬ ((match (send_notification_to_multiple_tokens envNoApp sNoApp ["tokA"] "t" "b" [] none).2 with
        | .ok (r, _) => r.responses.map TokenSendResult.toSendResult
        | .error _ => [])
       = (match (send_notification_to_token envNoApp sNoApp "tokA" "t" "b" [] none).2 with
          | .ok (r, _) => [r]
          | .error _ => [])) :=
  ⟨rfl, rfl, by decide⟩

/-- C5 amended: when the gateway client is configured, the bulk form is
exactly the loop of the single-recipient form: its responses are the
per-token single-form results tagged with their tokens, its counters
count the successes and failures among them, and its attempted messages
are the concatenation of the per-token single-form attempts.  When the
client is not configured the two forms differ: the single form
short-circuits with the fixed not-configured message without attempting
network I/O, while the bulk form still attempts every token and records
the error raised by the SDK. -/
theorem C5_amended (env : FirebaseEnv) (s : FirebaseState) (tokens : List String)
    (title body : String) (data : List (String × String)) (image_url : Option String)
    (h : s.app = some ()) :
    send_notification_to_multiple_tokens env s tokens title body data image_url =
      (s, .ok
        ({ success_count := (tokens.map (fun tok =>
             (tokenSendSpec env s tok title body data image_url).1)).countP
               (fun r => r.success),
           failure_count := (tokens.map (fun tok =>
             (tokenSendSpec env s tok title body data image_url).1)).countP
               (fun r => !r.success),
           responses := tokens.map (fun tok =>
             ((tokenSendSpec env s tok title body data image_url).1).withToken tok) },
         (tokens.map (fun tok =>
           (tokenSendSpec env s tok title body data image_url).2)).flatten)) := by
  have hsettled : firebaseSettled s = true := by simp [firebaseSettled, h]
  rw [multicast_settled env s hsettled]
  have hresp : tokens.map (fun tok =>
      ((tokenSendSpec env s tok title body data image_url).1).withToken tok) =
      tokens.map (gatewayResult env title body data image_url) :=
    List.map_congr_left (fun tok _ =>
      (tokenSendSpec_configured env s tok title body data image_url h).1)
  have hatt : (tokens.map (fun tok =>
      (tokenSendSpec env s tok title body data image_url).2)).flatten =
      tokens.map (mkFcmMessage title body data image_url) := by
    rw [List.map_congr_left (fun tok _ =>
      (tokenSendSpec_configured env s tok title body data image_url h).2)]
    exact flatten_map_singleton _ _
  have hsucc : ∀ tok, ((tokenSendSpec env s tok title body data image_url).1).success =
      (gatewayResult env title body data image_url tok).success := by
    intro tok
    rw [← (tokenSendSpec_configured env s tok title body data image_url h).1]
    rfl
  have hc1 : (tokens.map (fun tok =>
      (tokenSendSpec env s tok title body data image_url).1)).countP (fun r => r.success) =
      (tokens.map (gatewayResult env title body data image_url)).countP (fun r => r.success) := by
    rw [List.countP_map, List.countP_map]
    exact List.countP_congr (fun tok _ => by simp [Function.comp_def, hsucc tok])
  have hc2 : (tokens.map (fun tok =>
      (tokenSendSpec env s tok title body data image_url).1)).countP (fun r => !r.success) =
      (tokens.map (gatewayResult env title body data image_url)).countP (fun r => !r.success) := by
    rw [List.countP_map, List.countP_map]
    exact List.countP_congr (fun tok _ => by simp [Function.comp_def, hsucc tok])
  rw [hresp, hatt, hc1, hc2]

/-- Witness for C5 amended at a configured gateway with one accepted and
one rejected token. -/
theorem C5_amended_witness :
    send_notification_to_multiple_tokens envW fsW ["tokA", "tokB"] "t" "b" [] none =
      (fsW, .ok
        ({ success_count := (["tokA", "tokB"].map (fun tok =>
             (tokenSendSpec envW fsW tok "t" "b" [] none).1)).countP (fun r => r.success),
           failure_count := (["tokA", "tokB"].map (fun tok =>
             (tokenSendSpec envW fsW tok "t" "b" [] none).1)).countP (fun r => !r.success),
           responses := ["tokA", "tokB"].map (fun tok =>
             ((tokenSendSpec envW fsW tok "t" "b" [] none).1).withToken tok) },
         (["tokA", "tokB"].map (fun tok =>
           (tokenSendSpec envW fsW tok "t" "b" [] none).2)).flatten)) :=
  C5_amended envW fsW ["tokA", "tokB"] "t" "b" [] none (by decide)

/-- C6 counterexample: on the first call in a fresh state, an exception
raised by the initialization step propagates out of
send_notification_to_token to the caller (the availability check at
line 69 of firebase_service.py sits outside the try block), instead of
being converted into a success=false result — refuting the claim that
no exception ever propagates. -/
theorem C6_counterexample :
    send_notification_to_token envRaise { app := none, initialized := false }
        "tok" "t" "b" [] none
      = ({ app := none, initialized := true }, .error "Invalid certificate") := rfl

/-- C6 amended: provided the memoized initialization step does not raise
on this call (in particular on every call after the first), the
single-recipient operation never propagates an exception: with no usable
client it returns the fixed not-configured failure without attempting
network I/O, and an error from the transport is converted into a
success=false result with that message.  An exception raised by the
first initialization attempt, however, propagates to the caller. -/
theorem C6_amended (env : FirebaseEnv) (s : FirebaseState)
    (token title body : String) (data : List (String × String))
    (image_url : Option String) (h : (initialize_firebase env s).2 = none) :
    send_notification_to_token env s token title body data image_url =
      ((initialize_firebase env s).1,
       .ok (tokenSendSpec env (initialize_firebase env s).1
         token title body data image_url)) := by
  unfold send_notification_to_token is_firebase_available
  rcases hinit : initialize_firebase env s with ⟨s1, exc⟩
  cases exc with
  | some e => rw [hinit] at h; simp at h
  | none =>
    cases happ : s1.app with
    | none => simp [tokenSendSpec, happ]
    | some u =>
      cases u
      simp only [tokenSendSpec, happ]
      cases hsend : env.send
          { token := token, title := title, body := body, data := data, image := image_url } <;>
        simp [hsend]

/-- Witness for C6 amended: in the settled unconfigured state the call
returns the fixed not-configured result without raising. -/
theorem C6_amended_witness :
    send_notification_to_token envNoApp sNoApp "tokA" "t" "b" [] none =
      ((initialize_firebase envNoApp sNoApp).1,
       .ok (tokenSendSpec envNoApp (initialize_firebase envNoApp sNoApp).1
         "tokA" "t" "b" [] none)) :=
  C6_amended envNoApp sNoApp "tokA" "t" "b" [] none (by decide)

/-- C7: audience resolution returns exactly the active endpoints,
restricted to the requested platform when the platform filter is not
all (so an ios filter never yields an android or web endpoint), and
further restricted to endpoints owned by a user of the explicit user
set whenever the request is not broadcast-to-all and that set is
non-empty. -/
theorem C7_audience_resolution (db : List DeviceToken) (n : Notification)
    (t : DeviceToken) :
    t ∈ get_target_tokens db n ↔
      (t ∈ db ∧ t.is_active = true ∧
       (n.target_device_types ≠ "all" → t.device_type = n.target_device_types) ∧
       (n.send_to_all = false → n.target_users ≠ [] →
         ∃ u, t.user = some u ∧ u ∈ n.target_users)) := by
  unfold get_target_tokens
  by_cases hd : n.target_device_types = "all" <;>
    by_cases hs : n.send_to_all = true <;>
      by_cases hu : n.target_users = [] <;>
        cases htu : t.user <;>
          simp [hd, hs, hu, htu, List.mem_filter, List.isEmpty_iff,
            Bool.not_eq_true, List.elem_iff, and_assoc] <;>
          tauto

/-- Witness for C7: the ios endpoint of the sample table against an ios
filter. -/
theorem C7_audience_resolution_witness :
    ({ user := none, token := "tokB", device_type := "ios", is_active := true } : DeviceToken) ∈
        get_target_tokens dbW { nW with target_device_types := "ios" } ↔
      (({ user := none, token := "tokB", device_type := "ios", is_active := true } : DeviceToken)
          ∈ dbW ∧
       ({ user := none, token := "tokB", device_type := "ios", is_active := true } :
          DeviceToken).is_active = true ∧
       (({ nW with target_device_types := "ios" } : Notification).target_device_types ≠ "all" →
         ({ user := none, token := "tokB", device_type := "ios", is_active := true } :
            DeviceToken).device_type =
           ({ nW with target_device_types := "ios" } : Notification).target_device_types) ∧
       (({ nW with target_device_types := "ios" } : Notification).send_to_all = false →
         ({ nW with target_device_types := "ios" } : Notification).target_users ≠ [] →
         ∃ u, ({ user := none, token := "tokB", device_type := "ios", is_active := true } :
             DeviceToken).user = some u ∧
           u ∈ ({ nW with target_device_types := "ios" } : Notification).target_users)) :=
  C7_audience_resolution dbW { nW with target_device_types := "ios" }
    { user := none, token := "tokB", device_type := "ios", is_active := true }

/-- C8: the view intends a not-found error for an unknown token
(get_object_or_404), but the blanket except Exception of
unregister_device_token catches the Http404 and returns HTTP 500 with
the body Internal server error instead of a not-found response; no
stored row is mutated.  Evaluation of the modelled view at the failing
input. -/
theorem C8_unknown_token_returns_500 :
    unregister_device_token dbW (some "missing") =
      (dbW, { status := 500, error := some "Internal server error", created := none }) ∧
    unregister_device_token dbW (some "tokB") =
      ([{ user := some 1, token := "tokA", device_type := "android", is_active := true },
        { user := none, token := "tokB", device_type := "ios", is_active := false },
        { user := none, token := "tokC", device_type := "web", is_active := false }],
       { status := 200, error := none, created := none }) := by
  constructor <;> rfl

/-- Filtering after mapping a predicate-preserving function is mapping
after filtering. -/
theorem filter_map_pred_inv {α : Type} (f : α → α) (p : α → Bool)
    (hf : ∀ a, p (f a) = p a) (l : List α) :
    (l.map f).filter p = (l.filter p).map f := by
  induction l with
  | nil => rfl
  | cons a as ih =>
    by_cases hp : p a = true <;> simp [List.filter_cons, hf, hp, ih]

/-- A filter that selects something and at most one thing selects
exactly one thing. -/
theorem filter_eq_singleton_of {α : Type} (p : α → Bool) (l : List α)
    (h1 : (l.filter p).length ≤ 1) (h2 : l.any p = true) :
    ∃ x, l.filter p = [x] ∧ p x = true := by
  rcases List.any_eq_true.mp h2 with ⟨x, hx, hpx⟩
  have hmem : x ∈ l.filter p := List.mem_filter.mpr ⟨hx, hpx⟩
  match hf : l.filter p with
  | [] => rw [hf] at hmem; simp at hmem
  | [y] =>
    refine ⟨y, rfl, ?_⟩
    have : y ∈ l.filter p := by rw [hf]; exact List.mem_singleton_self y
    exact List.of_mem_filter this
  | y :: z :: rest => rw [hf] at h1; simp at h1

/-- C9: registration is idempotent per token.  A successful registration
call (truthy token, resolvable user) against a store holding at most one
row for the token — the unique constraint of the token column — leaves
exactly one row for that token, carrying the metadata of this latest
call, leaves every other row unchanged, and reports created versus
updated in the response flag and status code. -/
theorem C9_registration_idempotent (users : List Nat) (db : List DeviceToken)
    (p : RegisterPayload) (tok : String)
    (htok : p.token = some tok) (hne : tok.isEmpty = false)
    (huser : isFalsyNat p.user_id = true ∨ users.contains (p.user_id.getD 0) = true)
    (hinv : (db.filter (fun t => t.token == tok)).length ≤ 1) :
    (register_device_token users db p).1.filter (fun t => t.token == tok) =
      [{ user := resolvedUser p, token := tok,
         device_type := p.device_type.getD "android", is_active := true }] ∧
    (register_device_token users db p).2.created =
      some (!db.any (fun t => t.token == tok)) ∧
    (register_device_token users db p).2.status =
      (if db.any (fun t => t.token == tok) then 200 else 201) ∧
    (register_device_token users db p).1.filter (fun t => !(t.token == tok)) =
      db.filter (fun t => !(t.token == tok)) := by
  have hfal : isFalsyStr (some tok) = false := by simp [isFalsyStr, hne]
  have huok : (!(isFalsyNat p.user_id) && !(users.contains (p.user_id.getD 0))) = false := by
    rcases huser with h | h
    · simp only [h, Bool.not_true, Bool.false_and]
    · simp only [h, Bool.not_true, Bool.and_false]
  unfold register_device_token
  rw [htok]
  simp only [hfal, huok, Bool.false_eq_true, if_false, Option.getD_some]
  unfold update_or_create
  have hf : ∀ a : DeviceToken,
      ((if a.token == tok then
          { a with user := resolvedUser p, device_type := p.device_type.getD "android",
                   is_active := true }
        else a).token == tok) = (a.token == tok) := by
    intro a
    by_cases hp : (a.token == tok) = true <;> simp [hp]
  by_cases hany : db.any (fun t => t.token == tok) = true
  · simp only [hany, eq_self_iff_true, if_true, Bool.not_true, Bool.false_eq_true, if_false]
    rcases filter_eq_singleton_of _ db hinv hany with ⟨x, hfx, hpx⟩
    have hxtok : x.token = tok := by simpa using hpx
    refine ⟨?_, by trivial, by trivial, ?_⟩
    · rw [filter_map_pred_inv _ _ hf, hfx]
      simp [hpx, hxtok]
    · have hfneg : ∀ a : DeviceToken,
          (!((if a.token == tok then
              { a with user := resolvedUser p, device_type := p.device_type.getD "android",
                       is_active := true }
            else a).token == tok)) = (!(a.token == tok)) := by
        intro a; rw [hf]
      rw [filter_map_pred_inv _ _ hfneg]
      refine (List.map_congr_left ?_).trans (List.map_id _)
      intro a ha
      have hne2 : (a.token == tok) = false := by
        have := List.of_mem_filter ha
        simpa using this
      simp [hne2]
  · have hba : db.any (fun t => t.token == tok) = false := by
      simpa using hany
    have hall : ∀ a ∈ db, (a.token == tok) = false := by
      intro a ha
      by_cases hp : (a.token == tok) = true
      · exact absurd (List.any_eq_true.mpr ⟨a, ha, hp⟩) hany
      · simpa using hp
    simp only [hba, Bool.false_eq_true, if_false, Bool.not_false]
    refine ⟨?_, by trivial, by trivial, ?_⟩
    · rw [List.filter_append]
      have h1 : db.filter (fun t => t.token == tok) = [] :=
        List.filter_eq_nil_iff.mpr (by intro a ha; simp [hall a ha])
      rw [h1]
      simp
    · rw [List.filter_append]
      have h2 : List.filter (fun t : DeviceToken => !(t.token == tok))
          [{ user := resolvedUser p, token := tok,
             device_type := p.device_type.getD "android", is_active := true }] = [] := by
        simp
      rw [h2]
      simp

/-- Witness for C9: re-registering the already-present token tokA with
new metadata against the sample table. -/
theorem C9_registration_idempotent_witness :
    (register_device_token [1] dbW pW).1.filter (fun t => t.token == "tokA") =
      [{ user := resolvedUser pW, token := "tokA",
         device_type := pW.device_type.getD "android", is_active := true }] ∧
    (register_device_token [1] dbW pW).2.created =
      some (!dbW.any (fun t => t.token == "tokA")) ∧
    (register_device_token [1] dbW pW).2.status =
      (if dbW.any (fun t => t.token == "tokA") then 200 else 201) ∧
    (register_device_token [1] dbW pW).1.filter (fun t => !(t.token == "tokA")) =
      dbW.filter (fun t => !(t.token == "tokA")) :=
  C9_registration_idempotent [1] dbW pW "tokA"
    rfl (by decide) (by decide) (by decide)

/-- C10: every successful registration leaves the row for the submitted
token with is_active true — re-registering a previously unregistered
token reactivates it — and with owner exactly the user resolved from the
call: none when user_id is omitted or falsy, even if the row previously
had an owner. -/
theorem C10_registration_sets_active_and_owner (users : List Nat)
    (db : List DeviceToken) (p : RegisterPayload)
    (h1 : isFalsyStr p.token = false)
    (h2 : isFalsyNat p.user_id = true ∨ users.contains (p.user_id.getD 0) = true) :
    ∀ t ∈ (register_device_token users db p).1, t.token = p.token.getD "" →
      t.is_active = true ∧ t.user = resolvedUser p := by
  have huok : (!(isFalsyNat p.user_id) && !(users.contains (p.user_id.getD 0))) = false := by
    rcases h2 with h | h
    · simp only [h, Bool.not_true, Bool.false_and]
    · simp only [h, Bool.not_true, Bool.and_false]
  unfold register_device_token
  simp only [h1, huok, Bool.false_eq_true, if_false]
  unfold update_or_create
  by_cases hany : db.any (fun t => t.token == p.token.getD "") = true
  · simp only [hany, eq_self_iff_true, if_true]
    intro t ht htk
    rcases List.mem_map.mp ht with ⟨a, ha, rfl⟩
    by_cases hp : (a.token == p.token.getD "") = true
    · rw [if_pos hp]
      exact ⟨rfl, rfl⟩
    · rw [if_neg hp] at htk ⊢
      have hbeqf : (a.token == p.token.getD "") = false := by simpa using hp
      exact absurd htk (beq_eq_false_iff_ne.mp hbeqf)
  · have hba : db.any (fun t => t.token == p.token.getD "") = false := by
      simpa using hany
    simp only [hba, Bool.false_eq_true, if_false]
    intro t ht htk
    rcases List.mem_append.mp ht with ha | ha
    · exact absurd (List.any_eq_true.mpr ⟨t, ha, by simp [htk]⟩) hany
    · rw [List.mem_singleton.mp ha]
      exact ⟨rfl, rfl⟩

/-- Witness for C10: registering the previously deactivated, owned token
tokC without a user id reactivates it and clears the owner. -/
theorem C10_registration_witness :
    tC10.is_active = true ∧ tC10.user = resolvedUser pC10 :=
  C10_registration_sets_active_and_owner [1] dbC10 pC10
    (by decide) (Or.inl (by decide)) tC10 (by decide) (by decide)

end PushBack
